import Mathlib

/-!
Verification of the Deus-Ex-Machina element/bond/crystallization core.

Shallow embedding of the Python sources:
  * `src/theory/quantum.py`   — orbital filling engine (`madelung_rule`,
    `count_valence`, `orbital_type` and helpers)
  * `src/theory/generator.py` — `ElementGenerator.generate` (parameterised by
    the external name database, confidence table and mendeleev dataset)
  * `src/core/element.py`     — `Element`, `ElementStatus`
  * `src/level1/bonding.py`   — `BondingRules` and `BondPrediction`
  * `src/crystallization/detector.py` — `CrystallizationDetector`

Machine floats of the source are modelled as exact rationals `ℚ`; Python
exceptions are modelled with `Except String`; Python `None` with `Option`.
-/

attribute [local semireducible] Rat.ofScientific Rat.mul Rat.inv Rat.add Rat.sub

deriving instance DecidableEq for Except

/-! ## quantum.py -/

/-- Capacity of an orbital letter (`ORBITAL_CAPACITY` in quantum.py). -/
def ORBITAL_CAPACITY (c : Char) : Nat :=
  if c = 's' then 2 else if c = 'p' then 6 else if c = 'd' then 10
  else if c = 'f' then 14 else 18

/-- Angular-momentum index of an orbital letter (the `{'s':0,...}` maps). -/
def lval (c : Char) : Nat :=
  if c = 's' then 0 else if c = 'p' then 1 else if c = 'd' then 2
  else if c = 'f' then 3 else 4

/-- Source `NOBLE_GASES` keys in quantum.py. -/
def NOBLE_GAS_KEYS : List Nat := [2, 10, 18, 36, 54, 86, 118]

/-- Source `NOBLE_GASES` symbol lookup in quantum.py. -/
def NOBLE_GAS_SYMBOL (z : Nat) : String :=
  if z = 2 then "He" else if z = 10 then "Ne" else if z = 18 then "Ar"
  else if z = 36 then "Kr" else if z = 54 then "Xe" else if z = 86 then "Rn"
  else "Og"

/-- Keys of the `MADELUNG_EXCEPTIONS` table in quantum.py. -/
def MADELUNG_EXCEPTION_KEYS : List Nat :=
  [24, 29, 41, 42, 44, 45, 46, 47, 57, 58, 64, 78, 79, 89, 90, 91, 92, 93, 96, 103]

/-- Insert into a sorted list, after all elements that compare ≤. -/
def insertSorted (le : α → α → Bool) (x : α) : List α → List α
  | [] => [x]
  | y :: ys => if le y x then y :: insertSorted le x ys else x :: y :: ys

/-- Stable sort by a total `≤` test (the behaviour of Python `sorted`; all
key tuples sorted in this development are pairwise distinct). -/
def sortedBy (le : α → α → Bool) (l : List α) : List α :=
  l.foldl (fun acc x => insertSorted le x acc) []

/-- Python `sep.join(parts)`. -/
def joinSep (sep : String) : List String → String
  | [] => ""
  | [x] => x
  | x :: xs => x ++ sep ++ joinSep sep xs

/-- Source `_aufbau_order`: all (n, letter) with lval < n for n = 1..10, sorted by
(n + lval, n) — the Madelung rule. -/
def aufbau_order : List (Nat × Char) :=
  let orbitals := ((List.range 10).map (· + 1)).flatMap
    (fun n => (['s', 'p', 'd', 'f', 'g'].filter (fun c => lval c < n)).map (fun c => (n, c)))
  sortedBy (fun x y =>
    x.1 + lval x.2 < y.1 + lval y.2 || (x.1 + lval x.2 = y.1 + lval y.2 && x.1 ≤ y.1)) orbitals

/-- The orbital-filling loop of `madelung_rule`: walk the aufbau order, putting
`min remaining capacity` electrons in each orbital until none remain. -/
def fill_orbitals : List (Nat × Char) → Nat → List (Nat × Char × Nat)
  | [], _ => []
  | (n, orb) :: rest, remaining =>
    if remaining = 0 then []
    else
      let e := min remaining (ORBITAL_CAPACITY orb)
      (if 0 < e then [(n, orb, e)] else []) ++ fill_orbitals rest (remaining - e)

/-- Source `EXCEPTION_CONFIGS` from `_apply_exception` in quantum.py: hardcoded full
configurations for the Madelung-exception elements. -/
def EXCEPTION_CONFIGS (Z : Nat) : Option (List (Nat × Char × Nat)) :=
  if Z = 24 then some [(1,'s',2),(2,'s',2),(2,'p',6),(3,'s',2),(3,'p',6),(3,'d',5),(4,'s',1)]
  else if Z = 29 then some [(1,'s',2),(2,'s',2),(2,'p',6),(3,'s',2),(3,'p',6),(3,'d',10),(4,'s',1)]
  else if Z = 41 then some [(1,'s',2),(2,'s',2),(2,'p',6),(3,'s',2),(3,'p',6),(3,'d',10),(4,'s',2),(4,'p',6),(4,'d',4),(5,'s',1)]
  else if Z = 42 then some [(1,'s',2),(2,'s',2),(2,'p',6),(3,'s',2),(3,'p',6),(3,'d',10),(4,'s',2),(4,'p',6),(4,'d',5),(5,'s',1)]
  else if Z = 44 then some [(1,'s',2),(2,'s',2),(2,'p',6),(3,'s',2),(3,'p',6),(3,'d',10),(4,'s',2),(4,'p',6),(4,'d',7),(5,'s',1)]
  else if Z = 45 then some [(1,'s',2),(2,'s',2),(2,'p',6),(3,'s',2),(3,'p',6),(3,'d',10),(4,'s',2),(4,'p',6),(4,'d',8),(5,'s',1)]
  else if Z = 46 then some [(1,'s',2),(2,'s',2),(2,'p',6),(3,'s',2),(3,'p',6),(3,'d',10),(4,'s',2),(4,'p',6),(4,'d',10)]
  else if Z = 47 then some [(1,'s',2),(2,'s',2),(2,'p',6),(3,'s',2),(3,'p',6),(3,'d',10),(4,'s',2),(4,'p',6),(4,'d',10),(5,'s',1)]
  else if Z = 57 then some [(1,'s',2),(2,'s',2),(2,'p',6),(3,'s',2),(3,'p',6),(3,'d',10),(4,'s',2),(4,'p',6),(4,'d',10),(5,'s',2),(5,'p',6),(5,'d',1),(6,'s',2)]
  else if Z = 58 then some [(1,'s',2),(2,'s',2),(2,'p',6),(3,'s',2),(3,'p',6),(3,'d',10),(4,'s',2),(4,'p',6),(4,'d',10),(5,'s',2),(5,'p',6),(4,'f',1),(5,'d',1),(6,'s',2)]
  else if Z = 64 then some [(1,'s',2),(2,'s',2),(2,'p',6),(3,'s',2),(3,'p',6),(3,'d',10),(4,'s',2),(4,'p',6),(4,'d',10),(5,'s',2),(5,'p',6),(4,'f',7),(5,'d',1),(6,'s',2)]
  else if Z = 78 then some [(1,'s',2),(2,'s',2),(2,'p',6),(3,'s',2),(3,'p',6),(3,'d',10),(4,'s',2),(4,'p',6),(4,'d',10),(5,'s',2),(5,'p',6),(4,'f',14),(5,'d',9),(6,'s',1)]
  else if Z = 79 then some [(1,'s',2),(2,'s',2),(2,'p',6),(3,'s',2),(3,'p',6),(3,'d',10),(4,'s',2),(4,'p',6),(4,'d',10),(5,'s',2),(5,'p',6),(4,'f',14),(5,'d',10),(6,'s',1)]
  else if Z = 89 then some [(1,'s',2),(2,'s',2),(2,'p',6),(3,'s',2),(3,'p',6),(3,'d',10),(4,'s',2),(4,'p',6),(4,'d',10),(5,'s',2),(5,'p',6),(4,'f',14),(5,'d',10),(6,'s',2),(6,'p',6),(6,'d',1),(7,'s',2)]
  else if Z = 90 then some [(1,'s',2),(2,'s',2),(2,'p',6),(3,'s',2),(3,'p',6),(3,'d',10),(4,'s',2),(4,'p',6),(4,'d',10),(5,'s',2),(5,'p',6),(4,'f',14),(5,'d',10),(6,'s',2),(6,'p',6),(6,'d',2),(7,'s',2)]
  else if Z = 91 then some [(1,'s',2),(2,'s',2),(2,'p',6),(3,'s',2),(3,'p',6),(3,'d',10),(4,'s',2),(4,'p',6),(4,'d',10),(5,'s',2),(5,'p',6),(4,'f',14),(5,'d',10),(6,'s',2),(6,'p',6),(5,'f',2),(6,'d',1),(7,'s',2)]
  else if Z = 92 then some [(1,'s',2),(2,'s',2),(2,'p',6),(3,'s',2),(3,'p',6),(3,'d',10),(4,'s',2),(4,'p',6),(4,'d',10),(5,'s',2),(5,'p',6),(4,'f',14),(5,'d',10),(6,'s',2),(6,'p',6),(5,'f',3),(6,'d',1),(7,'s',2)]
  else if Z = 93 then some [(1,'s',2),(2,'s',2),(2,'p',6),(3,'s',2),(3,'p',6),(3,'d',10),(4,'s',2),(4,'p',6),(4,'d',10),(5,'s',2),(5,'p',6),(4,'f',14),(5,'d',10),(6,'s',2),(6,'p',6),(5,'f',4),(6,'d',1),(7,'s',2)]
  else if Z = 96 then some [(1,'s',2),(2,'s',2),(2,'p',6),(3,'s',2),(3,'p',6),(3,'d',10),(4,'s',2),(4,'p',6),(4,'d',10),(5,'s',2),(5,'p',6),(4,'f',14),(5,'d',10),(6,'s',2),(6,'p',6),(5,'f',7),(6,'d',1),(7,'s',2)]
  else if Z = 103 then some [(1,'s',2),(2,'s',2),(2,'p',6),(3,'s',2),(3,'p',6),(3,'d',10),(4,'s',2),(4,'p',6),(4,'d',10),(5,'s',2),(5,'p',6),(4,'f',14),(5,'d',10),(6,'s',2),(6,'p',6),(5,'f',14),(6,'d',1),(7,'s',2)]
  else none

/-- Source `_apply_exception`: replace the idealized configuration by the hardcoded
one when Z is an exception key (`EXCEPTION_CONFIGS.get(Z, config)`). -/
def apply_exception (Z : Nat) (config : List (Nat × Char × Nat)) : List (Nat × Char × Nat) :=
  (EXCEPTION_CONFIGS Z).getD config

/-- Source `_format_config`: sort by (n, lval) and print each orbital as
`{n}{letter}{count}` joined by spaces. -/
def format_config (config : List (Nat × Char × Nat)) : String :=
  let sorted := sortedBy (fun x y =>
    x.1 < y.1 || (x.1 = y.1 && lval x.2.1 ≤ lval y.2.1)) config
  joinSep " " (sorted.map (fun t => toString t.1 ++ String.singleton t.2.1 ++ toString t.2.2))

/-- Source `_format_with_noble_gas_core`: compress the largest noble-gas core below Z
and print the remaining orbitals (those past the core's electron count,
walking the configuration in the order it was built). -/
def format_with_noble_gas_core (Z : Nat) (config : List (Nat × Char × Nat)) : String :=
  let core_Z := (NOBLE_GAS_KEYS.filter (· < Z)).foldl max 0
  if core_Z = 0 then format_config config
  else
    let valence_config :=
      (config.foldl
        (fun (acc : Nat × List (Nat × Char × Nat)) t =>
          let count := acc.1 + t.2.2
          (count, if core_Z < count then acc.2 ++ [t] else acc.2))
        (0, [])).2
    let core_symbol := NOBLE_GAS_SYMBOL core_Z
    let valence_str := format_config valence_config
    if valence_str ≠ "" then "[" ++ core_symbol ++ "] " ++ valence_str
    else "[" ++ core_symbol ++ "]"

/-- Source `madelung_rule`: range-check, fill via the aufbau order, apply the
exception table, format (with or without a noble-gas core).  A raised
`ValueError` is modelled by `Except.error`. -/
def madelung_rule (Z : Int) (use_noble_gas_core : Bool := true) : Except String String :=
  if Z < 1 ∨ 173 < Z then
    .error ("Atomic number must be between 1 and 173, got " ++ toString Z)
  else
    let config := fill_orbitals aufbau_order Z.toNat
    let config := if Z.toNat ∈ MADELUNG_EXCEPTION_KEYS then apply_exception Z.toNat config else config
    .ok (if use_noble_gas_core then format_with_noble_gas_core Z.toNat config else format_config config)

/-- Digits of a decimal digit run, as a number. -/
def digitsToNat (ds : List Char) : Nat :=
  ds.foldl (fun a c => a * 10 + (c.toNat - '0'.toNat)) 0

/-- One attempt to match the regex `(\d+)([spdfg])(\d+)` at the head of the
character list: maximal digit run, an orbital letter, maximal digit run. -/
def tryMatch (cs : List Char) : Option (Nat × Char × Nat × List Char) :=
  let d1 := cs.takeWhile Char.isDigit
  let r1 := cs.dropWhile Char.isDigit
  if d1 = [] then none
  else
    match r1 with
    | [] => none
    | c :: r2 =>
      if c ∈ ['s', 'p', 'd', 'f', 'g'] then
        let d2 := r2.takeWhile Char.isDigit
        let r3 := r2.dropWhile Char.isDigit
        if d2 = [] then none
        else some (digitsToNat d1, c, digitsToNat d2, r3)
      else none

/-- Python `re.findall` of `(\d+)([spdfg])(\d+)`: leftmost, non-overlapping matches.
The fuel argument (initialised to the string length) bounds the scan. -/
def scanMatchesAux : Nat → List Char → List (Nat × Char × Nat)
  | 0, _ => []
  | _, [] => []
  | fuel + 1, c :: rest =>
    match tryMatch (c :: rest) with
    | some (n, orb, cnt, rest') => (n, orb, cnt) :: scanMatchesAux fuel rest'
    | none => scanMatchesAux fuel rest

/-- All matches of `(\d+)([spdfg])(\d+)` in a character list. -/
def scanMatches (cs : List Char) : List (Nat × Char × Nat) :=
  scanMatchesAux cs.length cs

/-- Python `str.strip()` (whitespace from both ends) on a character list. -/
def pyStrip (cs : List Char) : List Char :=
  ((cs.dropWhile Char.isWhitespace).reverse.dropWhile Char.isWhitespace).reverse

/-- The core-stripping prefix step of `count_valence` / `orbital_type`:
`config.split(']')[1].strip()` when `'['` occurs in the string (the segment
between the first and second `']'`, stripped). -/
def stripCore (config : String) : List Char :=
  let cs := config.toList
  if cs.contains '[' then
    pyStrip (((cs.dropWhile (fun c => c ≠ ']')).drop 1).takeWhile (fun c => c ≠ ']'))
  else cs

/-- Source `count_valence`: parse orbital occupations, find the highest shell n, sum
its electrons; report 0 when the highest shell holds neither s nor p. -/
def count_valence (config : String) : Nat :=
  let ms := scanMatches (stripCore config)
  if ms = [] then 0
  else
    let max_n := (ms.map (fun m => m.1)).foldl max 0
    let valence := (ms.foldl (fun acc m => if m.1 = max_n then acc + m.2.2 else acc) 0)
    let has_s_electrons := ms.any (fun m => m.1 = max_n && m.2.1 = 's')
    if ¬ has_s_electrons ∧ 0 < max_n then
      if ¬ ms.any (fun m => m.1 = max_n && (m.2.1 = 's' || m.2.1 = 'p')) then 0
      else valence
    else valence

/-- Source `orbital_type`: the letter of the last parsed orbital ("s" when none). -/
def orbital_type (config : String) : String :=
  let ms := scanMatches (stripCore config)
  match ms.getLast? with
  | none => "s"
  | some m => String.singleton m.2.1

/-! ## core/element.py -/

/-- Source `ElementStatus` enum. -/
inductive ElementStatus where
  | OBSERVED
  | SYNTHESIS_PLANNED
  | PREDICTED
  | SUPERCRITICAL
  | IMPOSSIBLE
deriving DecidableEq, Repr

/-- Source `Element` dataclass (the fields the core populates; the trailing optional
properties of the dataclass that no modelled code reads are omitted). -/
structure Element where
  atomic_number : Nat
  symbol : String
  name : String
  electron_configuration : String
  valence_electrons : Nat
  block : String
  status : ElementStatus
  confidence : List (String × ℚ)
  electronegativity : Option ℚ := none
deriving DecidableEq, Repr

/-! ## theory/generator.py -/

/-- Source `IUPAC_DIGIT_NAMES`. -/
def IUPAC_DIGIT_NAMES (c : Char) : String :=
  if c = '0' then "nil" else if c = '1' then "un" else if c = '2' then "bi"
  else if c = '3' then "tri" else if c = '4' then "quad" else if c = '5' then "pent"
  else if c = '6' then "hex" else if c = '7' then "sept" else if c = '8' then "oct"
  else "enn"

/-- Python `str.capitalize` on the ASCII strings involved here. -/
def capitalizeStr (s : String) : String :=
  match s.toList with
  | [] => ""
  | c :: r => String.mk (c.toUpper :: r)

/-- Source `_iupac_systematic_name`: digit-root naming for Z, giving (symbol, name). -/
def iupac_systematic_name (Z : Nat) : String × String :=
  let digits := (toString Z).toList
  let parts := digits.map IUPAC_DIGIT_NAMES
  let name := String.join parts ++ "ium"
  let symbol_parts := parts.map (fun p => String.mk (p.toList.take 1))
  let symbol := capitalizeStr (symbol_parts.headD "") ++ String.join (symbol_parts.drop 1)
  (symbol, capitalizeStr name)

/-- External collaborators of `ElementGenerator`: the mendeleev dataset
(`none` models an import failure or a raised lookup, `some v` a returned
`en_pauling` that may itself be `None`), the element-name database and the
loaded confidence table of `ConfidenceScorer.get_all_confidences`. -/
structure GenEnv where
  mendeleevAvailable : Bool
  mendeleevEN : Nat → Option (Option ℚ)
  elementNames : Nat → Option (String × String)
  allConfidences : Nat → List (String × ℚ)

/-- Source `ElementGenerator._classify_element`. -/
def classify_element (Z : Nat) : ElementStatus :=
  if Z ≤ 118 then .OBSERVED
  else if Z ≤ 120 then .SYNTHESIS_PLANNED
  else if Z ≤ 137 then .PREDICTED
  else if Z ≤ 172 then .SUPERCRITICAL
  else .IMPOSSIBLE

/-- Source `ElementGenerator._extrapolate_electronegativity`: group-trend estimate
from the valence count of the madelung configuration (which raises — is an
`Except.error` — outside the filling range). -/
def extrapolate_electronegativity (Z : Nat) : Except String (Option ℚ) := do
  let config ← madelung_rule Z
  let valence := count_valence config
  if valence = 8 ∨ (Z = 2 ∧ valence = 2) then pure none
  else if valence = 1 then pure (some 0.8)
  else if valence = 2 then pure (some 1.2)
  else if valence = 7 then pure (some 3.0)
  else if 3 ≤ valence ∧ valence ≤ 6 then pure (some (1.5 + (valence - 3 : ℚ) * 0.25))
  else pure (some 2.0)

/-- Source `ElementGenerator._compute_electronegativity`: mendeleev value for
observed elements when available, otherwise trend extrapolation. -/
def compute_electronegativity (env : GenEnv) (Z : Nat) : Except String (Option ℚ) :=
  if Z ≤ 118 ∧ env.mendeleevAvailable then
    match env.mendeleevEN Z with
    | some en => pure en
    | none => extrapolate_electronegativity Z
  else extrapolate_electronegativity Z

/-- Source `ElementGenerator._get_standard_name`: the database entry for Z when
present, else IUPAC systematic naming. -/
def get_standard_name (env : GenEnv) (Z : Nat) : String × String :=
  match env.elementNames Z with
  | some data => data
  | none => iupac_systematic_name Z

/-- Source `ElementGenerator.generate`: range-check [1,200], compute configuration,
valence, block, electronegativity, naming, status and confidences; a raised
`ValueError` is an `Except.error`. -/
def generate (env : GenEnv) (Z : Int) : Except String Element :=
  if Z < 1 ∨ 200 < Z then
    .error ("Atomic number must be between 1 and 200, got " ++ toString Z)
  else do
    let config ← madelung_rule Z
    let valence := count_valence config
    let block := orbital_type config
    let electronegativity ← compute_electronegativity env Z.toNat
    let sn := if Z ≤ 118 then get_standard_name env Z.toNat else iupac_systematic_name Z.toNat
    let status := classify_element Z.toNat
    let confidence := env.allConfidences Z.toNat
    pure {
      atomic_number := Z.toNat
      symbol := sn.1
      name := sn.2
      electron_configuration := config
      valence_electrons := valence
      block := block
      electronegativity := electronegativity
      status := status
      confidence := confidence
    }

/-- Whether an `Except` computation returned normally. -/
def exceptOk : Except String Element → Bool
  | .ok _ => true
  | .error _ => false

/-- A concrete generator environment: no mendeleev dataset, empty name
database, empty confidence table (all external to the core). -/
def env0 : GenEnv where
  mendeleevAvailable := false
  mendeleevEN := fun _ => none
  elementNames := fun _ => none
  allConfidences := fun _ => []

/-! ## level1/bonding.py -/

/-- Source `BondPrediction` dataclass.  `can_bond` is `Option Bool` because the
data-unavailable path assigns Python `None`. -/
structure BondPrediction where
  can_bond : Option Bool
  bond_type : String
  bond_order : Nat
  stability_score : ℚ
  confidence : ℚ
  confidence_breakdown : List (String × ℚ)
  reasoning : String
deriving DecidableEq, Repr

/-- Source `BondPrediction.is_reliable`. -/
def BondPrediction.is_reliable (p : BondPrediction) (threshold : ℚ := 0.5) : Bool :=
  threshold ≤ p.confidence

/-- The `bond_symbols` dict `{1:"-", 2:"=", 3:"≡"}` with default `"?"`. -/
def bondSymbol (order : Nat) : String :=
  if order = 1 then "-" else if order = 2 then "=" else if order = 3 then "≡" else "?"

/-- Stand-in for Python's `f"{x:.2f}"` rendering of a float; the digits are
not modelled (no claim depends on them), only that some text is produced. -/
def fmtQ (q : ℚ) : String := toString q

/-- Source `BondingRules.is_noble_gas`: valence 2 with Z ≤ 2, or valence 8. -/
def is_noble_gas (elem : Element) : Bool :=
  (elem.valence_electrons = 2 && elem.atomic_number ≤ 2) || elem.valence_electrons = 8

/-- The thresholding of `BondingRules.classify_bond_type` on ΔEN. -/
def classify_delta (delta_en : ℚ) : String :=
  if delta_en < 0.5 then "nonpolar_covalent"
  else if delta_en < 1.7 then "polar_covalent"
  else "ionic"

/-- Source `BondingRules.classify_bond_type`: |EN_a − EN_b| thresholds; accessing a
missing electronegativity raises in Python, modelled as `none`. -/
def classify_bond_type (elem_a elem_b : Element) : Option String := do
  let ena ← elem_a.electronegativity
  let enb ← elem_b.electronegativity
  pure (classify_delta |ena - enb|)

/-- Source `BondingRules.satisfies_octet`: both atoms still need electrons
(target 2 for Z ≤ 2, else 8). -/
def satisfies_octet (elem_a elem_b : Element) : Bool :=
  let target_a : Int := if elem_a.atomic_number ≤ 2 then 2 else 8
  let target_b : Int := if elem_b.atomic_number ≤ 2 then 2 else 8
  let needs_a := target_a - (elem_a.valence_electrons : Int)
  let needs_b := target_b - (elem_b.valence_electrons : Int)
  0 < needs_a && 0 < needs_b

/-- Source `BondingRules.satisfies_octet_with_order`: positive need beforehand and
valence + order within target + 2 afterwards, for both atoms. -/
def satisfies_octet_with_order (elem_a elem_b : Element) (bond_order : Nat) : Bool :=
  let target_a : Int := if elem_a.atomic_number ≤ 2 then 2 else 8
  let target_b : Int := if elem_b.atomic_number ≤ 2 then 2 else 8
  let needs_a := target_a - (elem_a.valence_electrons : Int)
  let needs_b := target_b - (elem_b.valence_electrons : Int)
  let after_bond_a := (elem_a.valence_electrons : Int) + bond_order
  let after_bond_b := (elem_b.valence_electrons : Int) + bond_order
  0 < needs_a && 0 < needs_b && after_bond_a ≤ target_a + 2 && after_bond_b ≤ target_b + 2

/-- Source `BondingRules.compute_stability_score`: base score by bond type, ionic
special case, the empirical per-pair tables, and the order-scaled default. -/
def compute_stability_score (elem_a elem_b : Element) (bond_order : Nat) (bond_type : String) : ℚ :=
  let base_stability : ℚ :=
    if bond_type = "nonpolar_covalent" then 0.85
    else if bond_type = "polar_covalent" then 0.85
    else if bond_type = "ionic" then 0.80
    else if bond_type = "none" then 0.0
    else if bond_type = "unknown" then 0.0
    else 0.5
  if bond_type = "ionic" then
    if bond_order = 1 then 0.90 else 0.20
  else if elem_a.atomic_number = 6 ∧ elem_b.atomic_number = 6 then
    if bond_order = 1 then 0.90 else if bond_order = 2 then 0.88 else if bond_order = 3 then 0.85 else 0.5
  else if (elem_a.atomic_number = 1 ∧ elem_b.atomic_number = 6) ∨ (elem_a.atomic_number = 6 ∧ elem_b.atomic_number = 1) then
    if bond_order = 1 then 0.92 else 0.10
  else if (elem_a.atomic_number = 6 ∧ elem_b.atomic_number = 8) ∨ (elem_a.atomic_number = 8 ∧ elem_b.atomic_number = 6) then
    if bond_order = 1 then 0.85 else if bond_order = 2 then 0.95 else if bond_order = 3 then 0.20 else 0.5
  else if (elem_a.atomic_number = 6 ∧ elem_b.atomic_number = 7) ∨ (elem_a.atomic_number = 7 ∧ elem_b.atomic_number = 6) then
    if bond_order = 1 then 0.88 else if bond_order = 2 then 0.86 else if bond_order = 3 then 0.82 else 0.5
  else if elem_a.atomic_number = 7 ∧ elem_b.atomic_number = 7 then
    if bond_order = 1 then 0.70 else if bond_order = 2 then 0.80 else if bond_order = 3 then 0.95 else 0.5
  else if elem_a.atomic_number = 8 ∧ elem_b.atomic_number = 8 then
    if bond_order = 1 then 0.82 else if bond_order = 2 then 0.92 else if bond_order = 3 then 0.05 else 0.5
  else if (elem_a.atomic_number = 7 ∧ elem_b.atomic_number = 8) ∨ (elem_a.atomic_number = 8 ∧ elem_b.atomic_number = 7) then
    if bond_order = 1 then 0.82 else if bond_order = 2 then 0.88 else if bond_order = 3 then 0.60 else 0.5
  else
    if bond_order = 1 then base_stability
    else if bond_order = 2 then base_stability * 0.90
    else if bond_order = 3 then base_stability * 0.75
    else 0.5

/-- Python `dict.get(prop, 0.0)` on a confidence mapping. -/
def confGet (c : List (String × ℚ)) (prop : String) : ℚ :=
  (((c.find? (fun kv => kv.1 = prop)).map Prod.snd)).getD 0.0

/-- Source `BondingRules._compute_confidence`: per-property pairwise minima over
{electron_configuration, electronegativity}, overall = min of those. -/
def compute_confidence (elem_a elem_b : Element) : ℚ × List (String × ℚ) :=
  let c_config := min (confGet elem_a.confidence "electron_configuration")
                      (confGet elem_b.confidence "electron_configuration")
  let c_en := min (confGet elem_a.confidence "electronegativity")
                  (confGet elem_b.confidence "electronegativity")
  let breakdown := [("electron_configuration", c_config), ("electronegativity", c_en)]
  (min c_config c_en, breakdown)

/-- The "noble gas" prediction returned by `BondingRules.can_bond` (the
reasoning names the inert element's symbol). -/
def noble_prediction (symbol : String) : BondPrediction where
  can_bond := some false
  bond_type := "none"
  bond_order := 0
  stability_score := 1.0
  confidence := 1.0
  confidence_breakdown := [("valence", 1.0)]
  reasoning := symbol ++ " is a noble gas (full valence shell)"

/-- The "unknown" prediction returned by `BondingRules.can_bond` when an
electronegativity is missing (Python sets `can_bond=None`). -/
def unknown_prediction : BondPrediction where
  can_bond := none
  bond_type := "unknown"
  bond_order := 0
  stability_score := 0.0
  confidence := 0.0
  confidence_breakdown := []
  reasoning := "Electronegativity data unavailable"

/-- Source `BondingRules.predict_all_bond_orders`: noble-gas gate, data gate, then
one prediction per order 1..max_order where max_order = min(valences, 3),
forced to 1 for hydrogen and capped at 2 for O–O.  (In the two gate branches
the source returns `[can_bond(a, b)]`, which evaluates to exactly the
prediction built here; `can_bond` itself is defined below since it consumes
this enumeration through `predict_bond_order`.) -/
def predict_all_bond_orders (elem_a elem_b : Element) : List BondPrediction :=
  if is_noble_gas elem_a then [noble_prediction elem_a.symbol]
  else if is_noble_gas elem_b then [noble_prediction elem_b.symbol]
  else
    match elem_a.electronegativity, elem_b.electronegativity with
    | some ena, some enb =>
      let max_order := min (min elem_a.valence_electrons elem_b.valence_electrons) 3
      let max_order := if elem_a.atomic_number = 1 ∨ elem_b.atomic_number = 1 then 1 else max_order
      let max_order := if elem_a.atomic_number = 8 ∧ elem_b.atomic_number = 8 then min max_order 2 else max_order
      let bond_type := classify_delta |ena - enb|
      let delta_en := |ena - enb|
      let cb := compute_confidence elem_a elem_b
      (List.range max_order).map (fun k =>
        let bond_order := k + 1
        let can_form_bond := satisfies_octet_with_order elem_a elem_b bond_order
        let stability_score := compute_stability_score elem_a elem_b bond_order bond_type
        { can_bond := some can_form_bond
          bond_type := bond_type
          bond_order := bond_order
          stability_score := stability_score
          confidence := cb.1
          confidence_breakdown := cb.2
          reasoning := elem_a.symbol ++ bondSymbol bond_order ++ elem_b.symbol ++ ": ΔEN="
            ++ fmtQ delta_en ++ " → " ++ bond_type ++ ", order=" ++ toString bond_order
            ++ ", stability=" ++ fmtQ stability_score })
    | _, _ => [unknown_prediction]

/-- Source `BondingRules.predict_bond_order`: 1 for hydrogen, else the order of the
first maximally stable enumerated prediction (Python `max` keeps the first
maximum), defaulting to 1 when the enumeration is empty. -/
def predict_bond_order (elem_a elem_b : Element) : Nat :=
  if elem_a.atomic_number = 1 ∨ elem_b.atomic_number = 1 then 1
  else
    match predict_all_bond_orders elem_a elem_b with
    | [] => 1
    | p :: ps =>
      (ps.foldl (fun best q => if best.stability_score < q.stability_score then q else best) p).bond_order

/-- Source `BondingRules.can_bond`: noble-gas gate, data gate, then the most likely
order with type, octet check, stability and propagated confidence. -/
def can_bond (elem_a elem_b : Element) : BondPrediction :=
  if is_noble_gas elem_a then noble_prediction elem_a.symbol
  else if is_noble_gas elem_b then noble_prediction elem_b.symbol
  else
    match elem_a.electronegativity, elem_b.electronegativity with
    | some ena, some enb =>
      let bond_order := predict_bond_order elem_a elem_b
      let bond_type := classify_delta |ena - enb|
      let delta_en := |ena - enb|
      let can_form_bond := satisfies_octet elem_a elem_b
      let stability_score := compute_stability_score elem_a elem_b bond_order bond_type
      let cb := compute_confidence elem_a elem_b
      { can_bond := some can_form_bond
        bond_type := bond_type
        bond_order := bond_order
        stability_score := stability_score
        confidence := cb.1
        confidence_breakdown := cb.2
        reasoning := elem_a.symbol ++ bondSymbol bond_order ++ elem_b.symbol ++ ": ΔEN="
          ++ fmtQ delta_en ++ " → " ++ bond_type ++ ", valence: " ++ elem_a.symbol ++ "("
          ++ toString elem_a.valence_electrons ++ ") " ++ elem_b.symbol ++ "("
          ++ toString elem_b.valence_electrons ++ ")" }
    | _, _ => unknown_prediction

/-! ## crystallization/detector.py -/

/-- Source `StructuralFeatures` dataclass (floats as `ℚ`; the open-ended `custom`
dict is always `{}` in the core and is modelled as a list of entries). -/
structure StructuralFeatures where
  num_nodes : Nat
  num_edges : Nat
  num_cycles : Nat
  max_cycle_size : Nat
  symmetry_order : Nat
  planarity : Bool
  conjugation : ℚ
  density : ℚ
  clustering : ℚ
  custom : List (String × ℚ)
deriving DecidableEq, Repr

/-- Source `StructuralFeatures.has_resonance`. -/
def StructuralFeatures.has_resonance (f : StructuralFeatures) : Bool :=
  0.5 < f.conjugation || (0 < f.num_cycles && 5 ≤ f.max_cycle_size)

/-- Source `StructuralFeatures.is_symmetric`. -/
def StructuralFeatures.is_symmetric (f : StructuralFeatures) : Bool :=
  1 < f.symmetry_order

/-- Source `AdditivityViolation` dataclass (`structural_features` keeps the record
rather than its `__dict__`). -/
structure AdditivityViolation where
  naive_value : ℚ
  actual_value : ℚ
  violation : ℚ
  relative_violation : ℚ
  confidence : ℚ
  classification : String
  structural_features : StructuralFeatures
  reasoning : String
deriving DecidableEq, Repr

/-- A structure handed to the detector: either one exposing `atoms` and
`bonds` collections (each bond is (node index, node index, order — possibly
fractional)), or any other value, for which the duck-typed `hasattr` checks
fail and all features default. -/
inductive PyStructure where
  | mol (atoms : List Nat) (bonds : List (Nat × Nat × ℚ))
  | plain
deriving DecidableEq, Repr

/-- Source `CrystallizationDetector._detect_cycles`: extra edges beyond a spanning
tree when edges ≥ nodes, max cycle size capped at min(nodes, 6). -/
def detect_cycles (atoms : List Nat) (bonds : List (Nat × Nat × ℚ)) : Nat × Nat :=
  let num_nodes := atoms.length
  let num_edges := bonds.length
  if num_nodes ≤ num_edges then (num_edges - num_nodes + 1, min num_nodes 6)
  else (0, 0)

/-- The degree array built by `_estimate_symmetry` (`degrees[i] += 1;
degrees[j] += 1` per bond; indices are in range for well-formed inputs). -/
def degreesOf (num_nodes : Nat) (bonds : List (Nat × Nat × ℚ)) : List Nat :=
  bonds.foldl
    (fun d b =>
      let d := d.set b.1 (d.getD b.1 0 + 1)
      d.set b.2.1 (d.getD b.2.1 0 + 1))
    (List.replicate num_nodes 0)

/-- Source `CrystallizationDetector._estimate_symmetry`: 6 for a 6-node degree-2
ring, 3 for a 3-node degree-2 ring, node count for other regular structures,
else 1. -/
def estimate_symmetry (atoms : List Nat) (bonds : List (Nat × Nat × ℚ)) : Nat :=
  let num_nodes := atoms.length
  let num_edges := bonds.length
  if 0 < num_nodes ∧ 0 < num_edges then
    let degrees := degreesOf num_nodes bonds
    if degrees.all (fun d => d = degrees.headD 0) then
      if num_nodes = 6 ∧ degrees.headD 0 = 2 then 6
      else if num_nodes = 3 ∧ degrees.headD 0 = 2 then 3
      else num_nodes
    else 1
  else 1

/-- Source `CrystallizationDetector._estimate_conjugation`: fraction of double /
fractional-order bonds, boosted in the presence of cycles. -/
def estimate_conjugation (atoms : List Nat) (bonds : List (Nat × Nat × ℚ)) : ℚ :=
  let double_bonds := (bonds.filter (fun b => b.2.2 = 2)).length
  let aromatic_bonds := (bonds.filter (fun b => 1 < b.2.2 ∧ b.2.2 < 2)).length
  let total_bonds := bonds.length
  if total_bonds = 0 then 0.0
  else
    let conjugated_share : ℚ := (double_bonds + aromatic_bonds : ℚ) / (total_bonds : ℚ)
    let num_cycles := (detect_cycles atoms bonds).1
    if 0 < num_cycles ∧ 0 < aromatic_bonds then min 1.0 (0.8 + conjugated_share * 0.2)
    else if 0 < num_cycles ∧ 0.3 < conjugated_share then min 1.0 (conjugated_share + 0.3)
    else conjugated_share

/-- Python `set.add` on an adjacency entry modelled as a duplicate-free list. -/
def addToSet (l : List Nat) (x : Nat) : List Nat :=
  if x ∈ l then l else l ++ [x]

/-- The adjacency sets built by `_compute_clustering`. -/
def adjacencyOf (num_nodes : Nat) (bonds : List (Nat × Nat × ℚ)) : List (List Nat) :=
  bonds.foldl
    (fun adj b =>
      let adj := adj.set b.1 (addToSet (adj.getD b.1 []) b.2.1)
      adj.set b.2.1 (addToSet (adj.getD b.2.1 []) b.1))
    (List.replicate num_nodes [])

/-- Source `CrystallizationDetector._compute_clustering`: for every adjacent pair
i < j, add the number of common neighbours of i and j; divide by
n(n−1)(n−2)/6. -/
def compute_clustering (atoms : List Nat) (bonds : List (Nat × Nat × ℚ)) : ℚ :=
  let num_nodes := atoms.length
  if num_nodes < 3 then 0.0
  else
    let adj := adjacencyOf num_nodes bonds
    let triangles := ((List.range num_nodes).map (fun i =>
      (((adj.getD i []).filter (fun j => i < j)).map (fun j =>
        ((adj.getD i []).filter (fun x => x ∈ adj.getD j [])).length)).sum)).sum
    let max_triangles : ℚ := (num_nodes : ℚ) * (num_nodes - 1 : ℚ) * (num_nodes - 2 : ℚ) / 6
    if 0 < max_triangles then (triangles : ℚ) / max_triangles else 0.0

/-- Source `CrystallizationDetector.extract_structural_features`: graph features
when the structure exposes atoms and bonds, trivial defaults otherwise. -/
def extract_structural_features (struct : PyStructure) : StructuralFeatures :=
  match struct with
  | .mol atoms bonds =>
    let num_nodes := atoms.length
    let num_edges := bonds.length
    let cyc := detect_cycles atoms bonds
    let num_cycles := cyc.1
    let max_cycle_size := cyc.2
    let symmetry_order := estimate_symmetry atoms bonds
    let planarity := num_cycles = 0 || max_cycle_size ≤ 6
    let conjugation := estimate_conjugation atoms bonds
    let max_edges : ℚ := if 1 < num_nodes then (num_nodes : ℚ) * (num_nodes - 1 : ℚ) / 2 else 1
    let density := if 0 < max_edges then (num_edges : ℚ) / max_edges else 0.0
    let clustering := compute_clustering atoms bonds
    { num_nodes := num_nodes, num_edges := num_edges, num_cycles := num_cycles
      max_cycle_size := max_cycle_size, symmetry_order := symmetry_order
      planarity := planarity, conjugation := conjugation, density := density
      clustering := clustering, custom := [] }
  | .plain =>
    { num_nodes := 0, num_edges := 0, num_cycles := 0, max_cycle_size := 0
      symmetry_order := 1, planarity := true, conjugation := 0.0, density := 0.0
      clustering := 0.0, custom := [] }

/-- Source `CrystallizationDetector.classify_violation` (the detector's configured
`violation_threshold` is the first argument; `violation` is passed but, as in
the source, unread). -/
def classify_violation (violation_threshold : ℚ) (violation relative_violation : ℚ)
    (features : StructuralFeatures) : String :=
  let abs_relative := |relative_violation|
  if violation_threshold * 2 < abs_relative then "must_cache"
  else if abs_relative < violation_threshold ∧ features.has_resonance = false ∧ features.is_symmetric = false then
    "decomposes_cleanly"
  else if violation_threshold < abs_relative ∧ (features.has_resonance = true ∨ features.is_symmetric = true) then
    "must_cache"
  else "uncertain"

/-- Stand-in for Python's `f"{x:.1%}"` rendering of a float; the digits are
not modelled (no claim depends on them), only that some text is produced. -/
def fmtPct (q : ℚ) : String := toString (q * 100) ++ "%"

/-- Source `CrystallizationDetector._generate_reasoning`: magnitude + direction,
then the structural signals, then the classification. -/
def generate_reasoning (violation relative_violation : ℚ) (classification : String)
    (features : StructuralFeatures) : String :=
  let abs_rel := |relative_violation|
  let direction := if violation < 0 then "stabilization" else "destabilization"
  let magnitude := if 0.10 < abs_rel then "large" else if 0.05 < abs_rel then "moderate" else "small"
  let reasoning_parts := [capitalizeStr magnitude ++ " " ++ direction ++ " (" ++ fmtPct abs_rel ++ ")"]
    ++ (if features.has_resonance then ["resonance/delocalization detected"] else [])
    ++ (if features.is_symmetric then ["symmetry order " ++ toString features.symmetry_order] else [])
    ++ (if 0 < features.num_cycles then [toString features.num_cycles ++ " cycle(s)"] else [])
    ++ ["→ " ++ classification]
  joinSep ", " reasoning_parts

/-- Source `CrystallizationDetector.measure_additivity_violation`: violation =
actual − naive, relative to |actual| (0 when actual is 0), features,
classification and reasoning. -/
def measure_additivity_violation (violation_threshold : ℚ) (struct : PyStructure)
    (naive_fn : PyStructure → ℚ) (actual_value : ℚ) (confidence : ℚ := 1.0) :
    AdditivityViolation :=
  let naive_value := naive_fn struct
  let violation := actual_value - naive_value
  let relative_violation := if actual_value ≠ 0 then violation / |actual_value| else 0.0
  let features := extract_structural_features struct
  let classification := classify_violation violation_threshold violation relative_violation features
  let reasoning := generate_reasoning violation relative_violation classification features
  { naive_value := naive_value
    actual_value := actual_value
    violation := violation
    relative_violation := relative_violation
    confidence := confidence
    classification := classification
    structural_features := features
    reasoning := reasoning }

/-! ## Concrete elements used in theorems

Field values are the ones the pipeline itself produces (configuration,
valence and block from `madelung_rule` / `count_valence` / `orbital_type`,
confidences from the default profile for observed elements,
electronegativities from the mendeleev dataset). -/

/-- Helium (Z = 2): a noble gas (valence 2, Z ≤ 2), no electronegativity. -/
def heliumE : Element where
  atomic_number := 2
  symbol := "He"
  name := "Helium"
  electron_configuration := "1s2"
  valence_electrons := 2
  block := "s"
  status := .OBSERVED
  confidence := [("electron_configuration", 1.0), ("electronegativity", 1.0)]
  electronegativity := none

/-- Carbon (Z = 6). -/
def carbonE : Element where
  atomic_number := 6
  symbol := "C"
  name := "Carbon"
  electron_configuration := "[He] 2s2 2p2"
  valence_electrons := 4
  block := "p"
  status := .OBSERVED
  confidence := [("electron_configuration", 1.0), ("electronegativity", 1.0)]
  electronegativity := some 2.55

/-- Oxygen (Z = 8). -/
def oxygenE : Element where
  atomic_number := 8
  symbol := "O"
  name := "Oxygen"
  electron_configuration := "[He] 2s2 2p4"
  valence_electrons := 6
  block := "p"
  status := .OBSERVED
  confidence := [("electron_configuration", 1.0), ("electronegativity", 1.0)]
  electronegativity := some 3.44

/-- Palladium (Z = 46): compact configuration "[Kr] 4d10", derived valence 0
(no s or p electron in the highest shell), electronegativity present — not a
noble gas, yet with zero valence room. -/
def palladiumE : Element where
  atomic_number := 46
  symbol := "Pd"
  name := "Palladium"
  electron_configuration := "[Kr] 4d10"
  valence_electrons := 0
  block := "d"
  status := .OBSERVED
  confidence := [("electron_configuration", 1.0), ("electronegativity", 1.0)]
  electronegativity := some 2.2

/-- An element whose per-property confidences are {0.85, 1.0} (the claim C9
worked example, e.g. a Z = 120 element under the default profile). -/
def exampleA : Element where
  atomic_number := 120
  symbol := "Ubn"
  name := "Unbinilium"
  electron_configuration := "[Og] 8s2"
  valence_electrons := 2
  block := "s"
  status := .SYNTHESIS_PLANNED
  confidence := [("electron_configuration", 0.85), ("electronegativity", 1.0)]
  electronegativity := some 1.2

/-- An element whose per-property confidences are {1.0, 1.0}. -/
def exampleB : Element where
  atomic_number := 6
  symbol := "C"
  name := "Carbon"
  electron_configuration := "[He] 2s2 2p2"
  valence_electrons := 4
  block := "p"
  status := .OBSERVED
  confidence := [("electron_configuration", 1.0), ("electronegativity", 1.0)]
  electronegativity := some 2.55

/-- Worded from the spec's classification sentence for comparison with the
source's `classify_violation`: must-cache above 2× the threshold; decomposes
cleanly below the threshold with neither resonance (conjugation > 0.5 or a
cycle of max size ≥ 5) nor symmetry (order > 1); must-cache above the
threshold with resonance or symmetry; otherwise uncertain. -/
def classify_violation_spec (threshold : ℚ) (relative_violation : ℚ)
    (f : StructuralFeatures) : String :=
  if 2 * threshold < |relative_violation| then "must_cache"
  else if |relative_violation| < threshold
      ∧ ¬ (0.5 < f.conjugation ∨ (0 < f.num_cycles ∧ 5 ≤ f.max_cycle_size))
      ∧ ¬ (1 < f.symmetry_order) then "decomposes_cleanly"
  else if threshold < |relative_violation|
      ∧ ((0.5 < f.conjugation ∨ (0 < f.num_cycles ∧ 5 ≤ f.max_cycle_size))
         ∨ 1 < f.symmetry_order) then "must_cache"
  else "uncertain"

/-! ## Theorems -/

/-- C6: the orbital-filling engine in compact mode returns the spec's sample
outputs — Z=1 → "1s1" (valence 1, block s), Z=6 → "[He] 2s2 2p2" (valence 4,
block p), Z=79 → "[Xe] 4f14 5d10 6s1" (valence 1, block s), Z=118 →
"[Rn] 5f14 6d10 7s2 7p6" (valence 8, block p) — and the exception table is
applied for Z=24, whose compact configuration ends in "3d5 4s1", not the
idealized "3d4 4s2". -/
theorem madelung_sample_outputs :
    madelung_rule 1 = .ok "1s1"
      ∧ count_valence "1s1" = 1 ∧ orbital_type "1s1" = "s"
    ∧ madelung_rule 6 = .ok "[He] 2s2 2p2"
      ∧ count_valence "[He] 2s2 2p2" = 4 ∧ orbital_type "[He] 2s2 2p2" = "p"
    ∧ madelung_rule 79 = .ok "[Xe] 4f14 5d10 6s1"
      ∧ count_valence "[Xe] 4f14 5d10 6s1" = 1 ∧ orbital_type "[Xe] 4f14 5d10 6s1" = "s"
    ∧ madelung_rule 118 = .ok "[Rn] 5f14 6d10 7s2 7p6"
      ∧ count_valence "[Rn] 5f14 6d10 7s2 7p6" = 8 ∧ orbital_type "[Rn] 5f14 6d10 7s2 7p6" = "p"
    ∧ (24 : Nat) ∈ MADELUNG_EXCEPTION_KEYS
    ∧ madelung_rule 24 = .ok ("[Ar] " ++ "3d5 4s1")
    ∧ madelung_rule 24 ≠ .ok ("[Ar] " ++ "3d4 4s2") := by
  decide

/-- C10: the valence count is not invariant under the two output notations:
for Z = 46 (palladium) the compact configuration "[Kr] 4d10" yields valence
0 while the full configuration of the same element yields 18. -/
theorem count_valence_not_invariant :
    ∃ Z : Int, 1 ≤ Z ∧ Z ≤ 173 ∧
      madelung_rule Z true = .ok "[Kr] 4d10" ∧
      madelung_rule Z false = .ok "1s2 2s2 2p6 3s2 3p6 3d10 4s2 4p6 4d10" ∧
      count_valence "[Kr] 4d10" = 0 ∧
      count_valence "1s2 2s2 2p6 3s2 3p6 3d10 4s2 4p6 4d10" = 18 :=
  ⟨46, by decide⟩

/-- C4 (code evaluation at the failing input): for a 3-node cycle — a single
triangle — the clustering feature computed by `extract_structural_features`
is 3, exceeding 1 (each triangle is counted once per adjacent pair, i.e.
three times, against a normalizer of one), where the claim and the source's
own docstring ("0.0 to 1.0") require 1. -/
theorem clustering_triangle_exceeds_one :
    (extract_structural_features (.mol [0, 1, 2] [(0, 1, 1), (1, 2, 1), (0, 2, 1)])).clustering = 3
    ∧ 1 < (extract_structural_features (.mol [0, 1, 2] [(0, 1, 1), (1, 2, 1), (0, 2, 1)])).clustering := by
  decide

/-- C1 (counterexample): Z = 174 lies inside the claim's asserted success
range [1,200], yet `generate` raises — the orbital-filling range check
[1,173] fires after the generator's own [1,200] check passes. -/
theorem generate_raises_at_174 :
    (1 : Int) ≤ 174 ∧ (174 : Int) ≤ 200 ∧
    generate env0 174 = .error "Atomic number must be between 1 and 173, got 174" := by
  decide

/-- C2 (counterexample): palladium (valence 0, electronegativity present,
not a noble gas) paired with itself yields an empty prediction list. -/
theorem predict_all_bond_orders_empty_on_palladium :
    predict_all_bond_orders palladiumE palladiumE = [] := by
  decide

/-- C3 (counterexample): with naive value 0 below actual value 1 (actual
nonzero), the violation field is +1 — positive, not negative as claimed. -/
theorem violation_sign_counterexample :
    (fun _ : PyStructure => (0 : ℚ)) PyStructure.plain < 1 ∧
    (measure_additivity_violation 0.05 .plain (fun _ => 0) 1 1).violation = 1 ∧
    ¬ (measure_additivity_violation 0.05 .plain (fun _ => 0) 1 1).violation < 0 := by
  decide

/-- C9: bond confidence is the minimum over {electron_configuration,
electronegativity} of the two elements' pairwise-minimum per-property
confidences, the breakdown records exactly those pairwise minima, and the
worked example {0.85, 1.0} vs {1.0, 1.0} yields 0.85 — not the average. -/
theorem confidence_minimum_rule (a b : Element) :
    (compute_confidence a b).1 =
      min (min (confGet a.confidence "electron_configuration")
               (confGet b.confidence "electron_configuration"))
          (min (confGet a.confidence "electronegativity")
               (confGet b.confidence "electronegativity"))
    ∧ (compute_confidence a b).2 =
      [("electron_configuration",
          min (confGet a.confidence "electron_configuration")
              (confGet b.confidence "electron_configuration")),
       ("electronegativity",
          min (confGet a.confidence "electronegativity")
              (confGet b.confidence "electronegativity"))]
    ∧ (compute_confidence exampleA exampleB).1 = 0.85
    ∧ (0.85 : ℚ) ≠ (0.85 + 1.0 + 1.0 + 1.0) / 4 := by
  refine ⟨rfl, rfl, by decide, by decide⟩

set_option maxHeartbeats 1000000 in
/-- C5: `classify_violation` returns exactly one of must_cache /
decomposes_cleanly / uncertain, decided as the spec phrases it: must_cache
above 2× the configured threshold; else decomposes_cleanly below the
threshold with neither resonance (conjugation > 0.5 or a cycle with max size
≥ 5) nor symmetry (order > 1); else must_cache above the threshold with
resonance or symmetry present; else uncertain. -/
theorem classify_violation_matches_spec (t v rv : ℚ) (f : StructuralFeatures) :
    classify_violation t v rv f = classify_violation_spec t rv f
    ∧ (classify_violation t v rv f = "must_cache"
       ∨ classify_violation t v rv f = "decomposes_cleanly"
       ∨ classify_violation t v rv f = "uncertain") := by
  have hres : (f.has_resonance = false)
      ↔ ¬ (0.5 < f.conjugation ∨ (0 < f.num_cycles ∧ 5 ≤ f.max_cycle_size)) := by
    simp only [StructuralFeatures.has_resonance, Bool.or_eq_false_iff,
      Bool.and_eq_false_iff, decide_eq_false_iff_not, not_or, not_and_or]
  have hrest : (f.has_resonance = true)
      ↔ (0.5 < f.conjugation ∨ (0 < f.num_cycles ∧ 5 ≤ f.max_cycle_size)) := by
    simp only [StructuralFeatures.has_resonance, Bool.or_eq_true, Bool.and_eq_true,
      decide_eq_true_eq]
  have hsym : (f.is_symmetric = false) ↔ ¬ (1 < f.symmetry_order) := by
    simp only [StructuralFeatures.is_symmetric, decide_eq_false_iff_not]
  have hsymt : (f.is_symmetric = true) ↔ (1 < f.symmetry_order) := by
    simp only [StructuralFeatures.is_symmetric, decide_eq_true_eq]
  constructor
  · unfold classify_violation classify_violation_spec
    dsimp only
    rw [mul_comm t 2]
    simp only [hres, hrest, hsym, hsymt]
  · unfold classify_violation
    dsimp only
    split_ifs <;> tauto

/-- C7: for elements with defined electronegativities, `classify_bond_type`
returns nonpolar_covalent iff ΔEN < 0.5, polar_covalent iff 0.5 ≤ ΔEN < 1.7
(so exactly 0.5 is polar covalent), and ionic iff ΔEN ≥ 1.7. -/
theorem classify_bond_type_boundaries (a b : Element) (x y : ℚ)
    (hx : a.electronegativity = some x) (hy : b.electronegativity = some y) :
    (classify_bond_type a b = some "nonpolar_covalent" ↔ |x - y| < 0.5)
    ∧ (classify_bond_type a b = some "polar_covalent" ↔ 0.5 ≤ |x - y| ∧ |x - y| < 1.7)
    ∧ (classify_bond_type a b = some "ionic" ↔ 1.7 ≤ |x - y|) := by
  have hcbt : classify_bond_type a b = some (classify_delta |x - y|) := by
    simp [classify_bond_type, hx, hy]
  rw [hcbt]
  refine ⟨⟨?_, ?_⟩, ⟨?_, ?_⟩, ⟨?_, ?_⟩⟩
  · intro h; unfold classify_delta at h; split_ifs at h with h1 h2
    · exact h1
    · exact absurd (Option.some.inj h) (by decide)
    · exact absurd (Option.some.inj h) (by decide)
  · intro h; unfold classify_delta; rw [if_pos h]
  · intro h; unfold classify_delta at h; split_ifs at h with h1 h2
    · exact absurd (Option.some.inj h) (by decide)
    · exact ⟨not_lt.mp h1, h2⟩
    · exact absurd (Option.some.inj h) (by decide)
  · rintro ⟨hge, hlt⟩; unfold classify_delta; rw [if_neg (not_lt.mpr hge), if_pos hlt]
  · intro h; unfold classify_delta at h; split_ifs at h with h1 h2
    · exact absurd (Option.some.inj h) (by decide)
    · exact absurd (Option.some.inj h) (by decide)
    · exact not_lt.mp h2
  · intro h; unfold classify_delta
    rw [if_neg (not_lt.mpr (by linarith)), if_neg (not_lt.mpr h)]

/-- Witness for C7 at carbon/oxygen: ΔEN = 0.89 gives polar covalent. -/
theorem classify_bond_type_boundaries_witness :
    carbonE.electronegativity = some 2.55 ∧ oxygenE.electronegativity = some 3.44 ∧
    classify_bond_type carbonE oxygenE = some "polar_covalent" :=
  ⟨rfl, rfl,
    ((classify_bond_type_boundaries carbonE oxygenE 2.55 3.44 rfl rfl).2.1).mpr (by decide)⟩

/-- C8: `is_noble_gas` holds exactly when valence is 8, or is 2 with atomic
number ≤ 2; and for a pair with a noble gas, both `can_bond` and
`predict_all_bond_orders` give a single prediction with can_bond = false,
bond_type "none", order 0, stability 1.0, confidence 1.0, whose reasoning
names the inert element. -/
theorem noble_gas_gate (a b : Element) :
    (is_noble_gas a = true
      ↔ (a.valence_electrons = 8 ∨ (a.valence_electrons = 2 ∧ a.atomic_number ≤ 2)))
    ∧ (is_noble_gas a = true ∨ is_noble_gas b = true →
        can_bond a b = noble_prediction (if is_noble_gas a then a.symbol else b.symbol)
        ∧ predict_all_bond_orders a b = [can_bond a b]
        ∧ (can_bond a b).can_bond = some false
        ∧ (can_bond a b).bond_type = "none"
        ∧ (can_bond a b).bond_order = 0
        ∧ (can_bond a b).stability_score = 1.0
        ∧ (can_bond a b).confidence = 1.0
        ∧ (can_bond a b).reasoning =
            (if is_noble_gas a then a.symbol else b.symbol) ++ " is a noble gas (full valence shell)") := by
  constructor
  · simp only [is_noble_gas, Bool.or_eq_true, Bool.and_eq_true, decide_eq_true_eq]
    tauto
  · intro h
    by_cases ha : is_noble_gas a = true
    · have hc : can_bond a b = noble_prediction a.symbol := by
        unfold can_bond; rw [if_pos ha]
      have hp : predict_all_bond_orders a b = [noble_prediction a.symbol] := by
        unfold predict_all_bond_orders; rw [if_pos ha]
      rw [hc, hp, if_pos ha]
      exact ⟨rfl, rfl, rfl, rfl, rfl, rfl, rfl, rfl⟩
    · have hb : is_noble_gas b = true := h.resolve_left ha
      have ha' : is_noble_gas a = false := by simpa using ha
      have hc : can_bond a b = noble_prediction b.symbol := by
        unfold can_bond; rw [if_neg (by simp [ha']), if_pos hb]
      have hp : predict_all_bond_orders a b = [noble_prediction b.symbol] := by
        unfold predict_all_bond_orders; rw [if_neg (by simp [ha']), if_pos hb]
      rw [hc, hp, if_neg (by simp [ha'])]
      exact ⟨rfl, rfl, rfl, rfl, rfl, rfl, rfl, rfl⟩

/-- Witness for C8 at helium (a noble gas) and carbon. -/
theorem noble_gas_gate_witness :
    (is_noble_gas heliumE = true ∨ is_noble_gas carbonE = true) ∧
    predict_all_bond_orders heliumE carbonE = [can_bond heliumE carbonE] :=
  ⟨Or.inl (by decide), ((noble_gas_gate heliumE carbonE).2 (Or.inl (by decide))).2.1⟩

/-- C2 (amended): `predict_all_bond_orders` returns a non-empty list except
exactly when both gates pass (no noble gas, both electronegativities
present), neither element is hydrogen, and either element has valence 0 —
there the enumeration `range(1, max_order+1)` is empty. -/
theorem predict_all_bond_orders_empty_iff (a b : Element) :
    predict_all_bond_orders a b = []
      ↔ (is_noble_gas a = false ∧ is_noble_gas b = false
         ∧ a.electronegativity.isSome = true ∧ b.electronegativity.isSome = true
         ∧ a.atomic_number ≠ 1 ∧ b.atomic_number ≠ 1
         ∧ (a.valence_electrons = 0 ∨ b.valence_electrons = 0)) := by
  unfold predict_all_bond_orders
  by_cases ha : is_noble_gas a = true
  · simp [ha]
  · have ha' : is_noble_gas a = false := by simpa using ha
    by_cases hb : is_noble_gas b = true
    · simp [ha', hb]
    · have hb' : is_noble_gas b = false := by simpa using hb
      rw [if_neg (by simp [ha']), if_neg (by simp [hb'])]
      cases hA : a.electronegativity with
      | none => simp [ha', hb', hA]
      | some x =>
        cases hB : b.electronegativity with
        | none => simp [ha', hb', hA, hB]
        | some y =>
          dsimp only
          simp only [ha', hb', hA, hB, Option.isSome_some, List.map_eq_nil_iff,
            List.range_eq_nil, true_and]
          split_ifs <;> first | omega | (rw [false_iff]; omega)

/-- Binding a successful `Except` computation applies the continuation. -/
theorem except_ok_bind {ε α β : Type} (a : α) (f : α → Except ε β) :
    (Except.ok a >>= f) = f a := rfl

/-- Binding a failed `Except` computation propagates the error. -/
theorem except_error_bind {ε α β : Type} (e : ε) (f : α → Except ε β) :
    ((Except.error e : Except ε α) >>= f) = Except.error e := rfl

/-- The orbital-filling engine succeeds on all of [1,173]. -/
theorem madelung_rule_ok_of (Z : Int) (b : Bool) (h : 1 ≤ Z ∧ Z ≤ 173) :
    ∃ s, madelung_rule Z b = .ok s := by
  unfold madelung_rule; rw [if_neg (by omega)]; exact ⟨_, rfl⟩

/-- Electronegativity extrapolation succeeds on all of [1,173]. -/
theorem extrapolate_electronegativity_ok (Z : Nat) (h : 1 ≤ (Z : Int) ∧ (Z : Int) ≤ 173) :
    ∃ v, extrapolate_electronegativity Z = .ok v := by
  obtain ⟨s, hs⟩ := madelung_rule_ok_of Z true h
  unfold extrapolate_electronegativity
  rw [hs, except_ok_bind]
  dsimp only
  split_ifs <;> exact ⟨_, rfl⟩

/-- Electronegativity computation succeeds on all of [1,173]. -/
theorem compute_electronegativity_ok (env : GenEnv) (Z : Nat)
    (h : 1 ≤ (Z : Int) ∧ (Z : Int) ≤ 173) :
    ∃ v, compute_electronegativity env Z = .ok v := by
  unfold compute_electronegativity
  split_ifs with h1
  · cases hm : env.mendeleevEN Z with
    | some en => exact ⟨en, rfl⟩
    | none => exact extrapolate_electronegativity_ok Z h
  · exact extrapolate_electronegativity_ok Z h

/-- C1 (amended): `generate` returns an Element exactly for 1 ≤ Z ≤ 173; it
fails with the generator's own range error for Z < 1 or Z > 200, and with
the orbital-filling range error for 174 ≤ Z ≤ 200 (whatever the external
name database, confidence table and mendeleev dataset are). -/
theorem generate_range_amended (env : GenEnv) (Z : Int) :
    (exceptOk (generate env Z) = true ↔ (1 ≤ Z ∧ Z ≤ 173))
    ∧ (Z < 1 ∨ 200 < Z →
        generate env Z = .error ("Atomic number must be between 1 and 200, got " ++ toString Z))
    ∧ ((174 ≤ Z ∧ Z ≤ 200) →
        generate env Z = .error ("Atomic number must be between 1 and 173, got " ++ toString Z)) := by
  have herr1 : ∀ (h : Z < 1 ∨ 200 < Z),
      generate env Z = .error ("Atomic number must be between 1 and 200, got " ++ toString Z) := by
    intro h; unfold generate; rw [if_pos h]
  have herr2 : ∀ (h : 174 ≤ Z ∧ Z ≤ 200),
      generate env Z = .error ("Atomic number must be between 1 and 173, got " ++ toString Z) := by
    intro h
    have hm : madelung_rule Z true
        = .error ("Atomic number must be between 1 and 173, got " ++ toString Z) := by
      unfold madelung_rule; rw [if_pos (by omega)]
    unfold generate
    rw [if_neg (by omega), hm, except_error_bind]
  refine ⟨⟨?_, ?_⟩, herr1, herr2⟩
  · intro hOk
    by_contra hcon
    rcases Classical.em (Z < 1 ∨ 200 < Z) with h | h
    · rw [herr1 h] at hOk; exact Bool.false_ne_true hOk
    · have h2 : 174 ≤ Z ∧ Z ≤ 200 := by omega
      rw [herr2 h2] at hOk; exact Bool.false_ne_true hOk
  · intro h
    obtain ⟨s, hs⟩ := madelung_rule_ok_of Z true h
    have hZ : ((Z.toNat : Int)) = Z := Int.toNat_of_nonneg (by omega)
    obtain ⟨v, hv⟩ := compute_electronegativity_ok env Z.toNat (by rw [hZ]; exact h)
    unfold generate
    rw [if_neg (by omega), hs, except_ok_bind]
    dsimp only
    rw [hv, except_ok_bind]
    rfl

/-- Witness for C1 at Z = 174: the filling range error is raised. -/
theorem generate_range_amended_witness :
    ((174 : Int) ≤ 174 ∧ (174 : Int) ≤ 200) ∧
    generate env0 174
      = .error ("Atomic number must be between 1 and 173, got " ++ toString (174 : Int)) :=
  ⟨⟨by norm_num, by norm_num⟩, (generate_range_amended env0 174).2.2 ⟨by norm_num, by norm_num⟩⟩

/-- Splitting `joinSep` on a list of at least two parts at its head. -/
theorem joinSep_cons (sep x : String) (l : List String) (h : l ≠ []) :
    joinSep sep (x :: l) = x ++ sep ++ joinSep sep l := by
  cases l with
  | nil => exact absurd rfl h
  | cons y ys => rfl

/-- The reasoning built by `generate_reasoning` always starts with a
magnitude word, the direction word chosen by the sign of the violation, and
an opening parenthesis. -/
theorem generate_reasoning_shape (v rv : ℚ) (c : String) (f : StructuralFeatures) :
    ∃ mag rest, (mag = "Small" ∨ mag = "Moderate" ∨ mag = "Large") ∧
      generate_reasoning v rv c f =
        mag ++ " " ++ (if v < 0 then "stabilization" else "destabilization")
          ++ (" (" ++ rest) := by
  unfold generate_reasoning
  dsimp only
  simp only [List.append_assoc, List.singleton_append, List.cons_append, List.nil_append]
  set dir := (if v < 0 then "stabilization" else "destabilization") with hdir
  set tail := ((if f.has_resonance = true then ["resonance/delocalization detected"] else [])
    ++ ((if f.is_symmetric = true then ["symmetry order " ++ toString f.symmetry_order] else [])
    ++ ((if 0 < f.num_cycles then [toString f.num_cycles ++ " cycle(s)"] else [])
    ++ ["→ " ++ c]))) with htail
  have htail_ne : tail ≠ [] := by
    rw [htail]
    simp
  have hmagcap : ∀ m : ℚ,
      capitalizeStr (if 0.10 < m then "large" else if 0.05 < m then "moderate" else "small")
        = (if 0.10 < m then "Large" else if 0.05 < m then "Moderate" else "Small") := by
    intro m; split_ifs <;> rfl
  refine ⟨capitalizeStr (if 0.10 < |rv| then "large" else if 0.05 < |rv| then "moderate" else "small"),
    fmtPct |rv| ++ (")" ++ (", " ++ joinSep ", " tail)), ?_, ?_⟩
  · rw [hmagcap]; split_ifs <;> tauto
  · rw [joinSep_cons ", " _ tail htail_ne]
    simp only [String.append_assoc]

/-- C3 (amended): with nonzero actual value, a naive value below actual
yields a positive violation and "destabilization" in the direction slot of
the reasoning; a naive value above actual yields a negative violation and
"stabilization".  (The claim as frozen attaches the opposite signs to the
two directions; the counterexample forces this swap.) -/
theorem violation_sign_convention (t : ℚ) (s : PyStructure) (nf : PyStructure → ℚ)
    (actual conf : ℚ) (hact : actual ≠ 0) :
    (nf s < actual →
      0 < (measure_additivity_violation t s nf actual conf).violation
      ∧ ∃ mag rest, (mag = "Small" ∨ mag = "Moderate" ∨ mag = "Large")
        ∧ (measure_additivity_violation t s nf actual conf).reasoning
          = mag ++ " " ++ "destabilization" ++ (" (" ++ rest))
    ∧ (actual < nf s →
      (measure_additivity_violation t s nf actual conf).violation < 0
      ∧ ∃ mag rest, (mag = "Small" ∨ mag = "Moderate" ∨ mag = "Large")
        ∧ (measure_additivity_violation t s nf actual conf).reasoning
          = mag ++ " " ++ "stabilization" ++ (" (" ++ rest)) := by
  have hviol : (measure_additivity_violation t s nf actual conf).violation = actual - nf s := rfl
  have hreas : (measure_additivity_violation t s nf actual conf).reasoning =
      generate_reasoning (actual - nf s)
        (if actual ≠ 0 then (actual - nf s) / |actual| else 0.0)
        (classify_violation t (actual - nf s)
          (if actual ≠ 0 then (actual - nf s) / |actual| else 0.0)
          (extract_structural_features s))
        (extract_structural_features s) := rfl
  constructor
  · intro hlt
    refine ⟨by rw [hviol]; linarith, ?_⟩
    obtain ⟨mag, rest, hmag, heq⟩ := generate_reasoning_shape (actual - nf s)
      (if actual ≠ 0 then (actual - nf s) / |actual| else 0.0)
      (classify_violation t (actual - nf s) (if actual ≠ 0 then (actual - nf s) / |actual| else 0.0)
        (extract_structural_features s))
      (extract_structural_features s)
    have hno : ¬ (actual - nf s < 0) := not_lt.mpr (by linarith)
    rw [if_neg hno] at heq
    exact ⟨mag, rest, hmag, by rw [hreas]; exact heq⟩
  · intro hgt
    refine ⟨by rw [hviol]; linarith, ?_⟩
    obtain ⟨mag, rest, hmag, heq⟩ := generate_reasoning_shape (actual - nf s)
      (if actual ≠ 0 then (actual - nf s) / |actual| else 0.0)
      (classify_violation t (actual - nf s) (if actual ≠ 0 then (actual - nf s) / |actual| else 0.0)
        (extract_structural_features s))
      (extract_structural_features s)
    have hyes : actual - nf s < 0 := by linarith
    rw [if_pos hyes] at heq
    exact ⟨mag, rest, hmag, by rw [hreas]; exact heq⟩

/-- Witness for C3 at naive 0, actual 1: the violation is positive. -/
theorem violation_sign_convention_witness :
    ((1 : ℚ) ≠ 0 ∧ (fun _ : PyStructure => (0 : ℚ)) PyStructure.plain < 1) ∧
    0 < (measure_additivity_violation 0.05 .plain (fun _ => 0) 1 1).violation :=
  ⟨⟨by norm_num, by norm_num⟩,
    ((violation_sign_convention 0.05 .plain (fun _ => 0) 1 1 (by norm_num)).1 (by norm_num)).1⟩
